import Mathlib

/-!
Verification of the signal repository's natural-language specification
against a shallow embedding of its Python sources.

Embedded modules:
* `src/src/enhanced_signal_engine.py` (EnhancedSignalEngine)
* `src/src/enhanced_risk_manager.py`  (EnhancedRiskManager)
* `src/src/comprehensive_backtest.py` (ComprehensiveBacktester)
* `src/src/backtest_engine.py`        (BacktestEngine)

Python floats are modelled by `ℚ`; a pandas cell that may be missing or NaN
is modelled by `Option ℚ` (with `Option.getD` standing for the
`.get(col, default)` / `pd.isna` fallback idiom of the source).
`len(df)` is carried as a natural number field.
-/

namespace SignalRepo

/-- Signal values of the engine: the strings "BUY" / "SELL" / "NEUTRAL". -/
inductive Signal where
  | buy
  | sell
  | neutral
deriving DecidableEq, Repr

/-- Trend values of `evaluate_trend_strength`: "BULLISH" / "BEARISH" / "NEUTRAL". -/
inductive Trend where
  | bullish
  | bearish
  | neutral
deriving DecidableEq, Repr

/-- Data visible to `EnhancedSignalEngine` for one evaluation:
the last row of the dataframe (`df.iloc[-1]`), the fields of the
second-to-last row that the source reads (`df.iloc[-2]`), and `len(df)`.
`none` stands for a missing column or a NaN cell. -/
structure Snapshot where
  n : ℕ
  close : ℚ
  volume : ℚ
  ema10 : Option ℚ
  ema20 : Option ℚ
  ema50 : Option ℚ
  sma200 : Option ℚ
  adx : Option ℚ
  supertrend : Option ℚ
  aroonUp : Option ℚ
  aroonDown : Option ℚ
  rsi : Option ℚ
  macdHist : Option ℚ
  roc : Option ℚ
  williamsR : Option ℚ
  mfi : Option ℚ
  prevMacdHist : Option ℚ
  volumeMA : Option ℚ
  obv : Option ℚ
  prevObv : Option ℚ
  cmf : Option ℚ
  atr : Option ℚ
deriving DecidableEq, Repr

/-- Count of bullish votes in `evaluate_trend_strength`
(src/src/enhanced_signal_engine.py lines 69-94): six boolean checks,
each contributing 1 to `bullish_signals`. -/
def bullishSignals (s : Snapshot) : ℕ :=
  let e10 := s.ema10.getD s.close
  let e20 := s.ema20.getD s.close
  let e50 := s.ema50.getD s.close
  let s200 := s.sma200.getD s.close
  let adx := s.adx.getD 25
  let st := s.supertrend.getD 1
  let aUp := s.aroonUp.getD 50
  let aDn := s.aroonDown.getD 50
  (if e20 < e10 then 1 else 0) +
  (if e50 < e20 then 1 else 0) +
  (if s200 < s.close then 1 else 0) +
  (if 20 < adx then 1 else 0) +
  (if st = 1 then 1 else 0) +
  (if aDn < aUp then 1 else 0)

/-- Result record of `evaluate_trend_strength` (the fields later code reads). -/
structure TrendEval where
  trend : Trend
  confidence : ℚ
  bullish : ℕ
  bearish : ℕ
deriving DecidableEq, Repr

/-- Embedding of `EnhancedSignalEngine.evaluate_trend_strength`
(src/src/enhanced_signal_engine.py lines 30-139).  `bearish_signals` is
`6 - bullish_signals`; the final confidence is `min(100, max(50, c))`. -/
def evaluateTrendStrength (s : Snapshot) : TrendEval :=
  let bull := bullishSignals s
  let bear := 6 - bull
  let tc : Trend × ℚ :=
    if 3 ≤ bull then (Trend.bullish, min 100 ((bull : ℚ) / 6 * 100))
    else if 3 ≤ bear then (Trend.bearish, min 100 ((bear : ℚ) / 6 * 100))
    else if bear < bull then (Trend.bullish, min 100 ((bull : ℚ) / 6 * 100))
    else if bull < bear then (Trend.bearish, min 100 ((bear : ℚ) / 6 * 100))
    else (Trend.neutral, 50)
  { trend := tc.1
    confidence := min 100 (max 50 tc.2)
    bullish := bull
    bearish := bear }

/-- RSI partial credit in `evaluate_momentum_confirmation`
(lines 169-175): 1 for `30 < rsi < 80`, else 0.5 for `rsi >= 50`, else 0. -/
def rsiCredit (s : Snapshot) : ℚ :=
  let rsi := s.rsi.getD 50
  if 30 < rsi ∧ rsi < 80 then 1
  else if 50 ≤ rsi then 1/2
  else 0

/-- MACD-histogram partial credit (lines 177-193): 1 when the histogram is
positive; otherwise, with at least two rows, 0.3 when the previous histogram
was positive and the current one exceeds half of it. -/
def macdCredit (s : Snapshot) : ℚ :=
  let m := s.macdHist.getD 0
  if 0 < m then 1
  else if 1 < s.n then
    let p := s.prevMacdHist.getD 0
    if 0 < p ∧ p * (1/2) < m then 3/10 else 0
  else 0

/-- ROC partial credit (lines 195-201): 1 when positive, 0.3 when above -0.5. -/
def rocCredit (s : Snapshot) : ℚ :=
  let roc := s.roc.getD 0
  if 0 < roc then 1
  else if -(1/2) < roc then 3/10
  else 0

/-- Williams %R partial credit (lines 203-209). -/
def williamsCredit (s : Snapshot) : ℚ :=
  let w := s.williamsR.getD (-50)
  if -80 < w ∧ w < -20 then 1
  else if -95 < w ∧ w < 0 then 3/10
  else 0

/-- MFI partial credit (lines 211-217). -/
def mfiCredit (s : Snapshot) : ℚ :=
  let mfi := s.mfi.getD 50
  if 30 < mfi ∧ mfi < 90 then 1
  else if 40 < mfi then 3/10
  else 0

/-- The `confirmation_score` accumulated by
`evaluate_momentum_confirmation` (lines 166-217). -/
def momentumScore (s : Snapshot) : ℚ :=
  rsiCredit s + macdCredit s + rocCredit s + williamsCredit s + mfiCredit s

/-- Result record of `evaluate_momentum_confirmation`. -/
structure MomentumEval where
  confirmed : Bool
  confidence : ℚ
  score : ℚ
deriving DecidableEq, Repr

/-- Embedding of `EnhancedSignalEngine.evaluate_momentum_confirmation`
(lines 141-231): `confirmed = score >= 1.5`,
`confidence = min(100, max(50, score / 5 * 100))`. -/
def evaluateMomentumConfirmation (s : Snapshot) : MomentumEval :=
  let score := momentumScore s
  { confirmed := decide (3/2 ≤ score)
    confidence := min 100 (max 50 (score / 5 * 100))
    score := score }

/-- Result record of `evaluate_volume_confirmation`. -/
structure VolumeEval where
  confirmed : Bool
  confidence : ℚ
deriving DecidableEq, Repr

/-- Embedding of `EnhancedSignalEngine.evaluate_volume_confirmation`
(lines 233-287): three boolean checks, confirmed when at least one holds. -/
def evaluateVolumeConfirmation (s : Snapshot) : VolumeEval :=
  let vma := s.volumeMA.getD s.volume
  let obv := s.obv.getD 0
  let cmf := s.cmf.getD 0
  let volumeOk := vma * (2/5) ≤ s.volume
  let obvBullish := 1 < s.n ∧ s.prevObv.getD obv < obv
  let cmfBullish := -(1/10) < cmf
  let score : ℕ :=
    (if volumeOk then 1 else 0) + (if obvBullish then 1 else 0) +
    (if cmfBullish then 1 else 0)
  { confirmed := decide (1 ≤ score)
    confidence := min 100 ((score : ℚ) / 3 * 100) }

/-- Trade setup record built by `apply_strict_signal_rules` (lines 480-503). -/
structure Setup where
  entry : ℚ
  stopLoss : ℚ
  takeProfit : ℚ
  rr : ℚ
  positionSize : ℚ
  atr : ℚ
  signalBars : ℕ
deriving DecidableEq, Repr

/-- Result record of `apply_strict_signal_rules` (the fields the claims read;
the quality grade and reason strings are elided). -/
structure SignalResult where
  signal : Signal
  confidence : ℚ
  setup : Setup
deriving DecidableEq, Repr

/-- Embedding of `EnhancedSignalEngine.apply_strict_signal_rules`
(src/src/enhanced_signal_engine.py lines 368-528; the second definition of
the method, which in Python overrides the first at class-creation time).
With fewer than 50 candles it returns the INSUFFICIENT_DATA result; otherwise
the BUY/SELL branches require trend and momentum to align, and the setup is
derived from close and ATR. -/
def applyStrictSignalRules (s : Snapshot) : SignalResult :=
  if s.n < 50 then
    { signal := Signal.neutral
      confidence := 0
      setup := { entry := 0, stopLoss := 0, takeProfit := 0, rr := 0,
                 positionSize := 0, atr := 0, signalBars := 0 } }
  else
    let tr := evaluateTrendStrength s
    let mo := evaluateMomentumConfirmation s
    let vo := evaluateVolumeConfirmation s
    let price := s.close
    let atr := s.atr.getD (price * (1/50))
    let sc : Signal × ℚ :=
      if tr.trend = Trend.bullish ∧ 45 < tr.confidence ∧
          mo.confirmed = true ∧ 45 < mo.confidence then
        let base := (tr.confidence + mo.confidence) / 2
        (Signal.buy, if vo.confirmed then min 95 (base + 5) else base)
      else if tr.trend = Trend.bearish ∧ 45 < tr.confidence ∧
          mo.confirmed = true ∧ 45 < mo.confidence then
        let base := (tr.confidence + mo.confidence) / 2
        (Signal.sell, if vo.confirmed then min 95 (base + 5) else base)
      else (Signal.neutral, 0)
    let setup0 : Setup :=
      { entry := price, stopLoss := 0, takeProfit := 0, rr := 0,
        positionSize := 0, atr := atr, signalBars := s.n }
    let setup :=
      if sc.1 = Signal.buy then
        let sl := price - atr * (5/2)
        let tp := price + atr * 5
        { setup0 with stopLoss := sl, takeProfit := tp,
                      rr := (tp - price) / (price - sl) }
      else if sc.1 = Signal.sell then
        let sl := price + atr * (5/2)
        let tp := price - atr * 5
        { setup0 with stopLoss := sl, takeProfit := tp,
                      rr := (price - tp) / (sl - price) }
      else setup0
    { signal := sc.1
      confidence := min 100 (max 0 sc.2)
      setup := setup }

/-- Direction sign of a signal: +1 for BUY, -1 for SELL, 0 for NEUTRAL. -/
def dirSign : Signal → ℚ
  | Signal.buy => 1
  | Signal.sell => -1
  | Signal.neutral => 0

/-- Mutable state of `EnhancedRiskManager`
(src/src/enhanced_risk_manager.py lines 21-39). -/
structure RMState where
  accountBalance : ℚ
  maxRiskPercent : ℚ
  maxRiskAmount : ℚ
  tradesLog : List ℚ
  cumulativeLoss : ℚ
  consecutiveLosses : ℕ
  peakBalance : ℚ
deriving DecidableEq, Repr

/-- Result record of `EnhancedRiskManager.validate_drawdown`. -/
structure DrawdownResult where
  drawdownPercent : ℚ
  maxAllowed : ℚ
  exceeded : Bool
  peakBalance : ℚ
  currentBalance : ℚ
deriving DecidableEq, Repr

/-- Embedding of `EnhancedRiskManager.validate_drawdown`
(src/src/enhanced_risk_manager.py lines 166-194).  It first raises the
stored peak to the current balance when that is a new high, then measures
the drawdown from the (updated) peak; the updated manager state is returned
alongside the result. -/
def validateDrawdown (st : RMState) (currentBalance maxDrawdownPercent : ℚ) :
    RMState × DrawdownResult :=
  let st2 := if st.peakBalance < currentBalance
    then { st with peakBalance := currentBalance } else st
  let drawdown := (st2.peakBalance - currentBalance) / st2.peakBalance * 100
  (st2,
    { drawdownPercent := drawdown
      maxAllowed := maxDrawdownPercent
      exceeded := decide (maxDrawdownPercent < drawdown)
      peakBalance := st2.peakBalance
      currentBalance := currentBalance })

/-- Result record of `validate_risk_reward_ratio` (the fields enforce reads). -/
structure RRCheck where
  valid : Bool
  rr : ℚ
deriving DecidableEq, Repr

/-- Embedding of `EnhancedRiskManager.validate_risk_reward_ratio`
(src/src/enhanced_risk_manager.py lines 77-120). -/
def validateRiskReward (entry stopLoss takeProfit minRR : ℚ) : RRCheck :=
  let risk := |entry - stopLoss|
  let reward := |takeProfit - entry|
  if risk ≤ 0 then { valid := false, rr := 0 }
  else { valid := decide (minRR ≤ reward / risk), rr := reward / risk }

/-- Result record of the stop-loss / take-profit placement checks. -/
structure DistCheck where
  valid : Bool
  distance : ℚ
deriving DecidableEq, Repr

/-- Embedding of `EnhancedRiskManager.check_stop_loss_validity`
(lines 196-216) with the minimum distance passed explicitly, as
`enforce_risk_rules` does. -/
def checkStopLossValidity (entry stopLoss minSlDistance : ℚ) : DistCheck :=
  let distance := |entry - stopLoss|
  { valid := decide (minSlDistance ≤ distance), distance := distance }

/-- Embedding of `EnhancedRiskManager.check_take_profit_validity`
(lines 218-235). -/
def checkTakeProfitValidity (entry takeProfit atr : ℚ) : DistCheck :=
  let distance := |takeProfit - entry|
  let maxTP := entry + atr * 10
  { valid := decide (0 < distance ∧ distance < maxTP), distance := distance }

/-- Market data read by `validate_market_conditions`: dataframe length,
last volume, and the optional Volume_MA / ADX cells. -/
structure MarketData where
  n : ℕ
  volume : ℚ
  volumeMA : Option ℚ
  adx : Option ℚ
deriving DecidableEq, Repr

/-- Result record of `validate_market_conditions`. -/
structure MarketCheck where
  valid : Bool
  reasons : List String
deriving DecidableEq, Repr

/-- Embedding of `EnhancedRiskManager.validate_market_conditions`
(src/src/enhanced_risk_manager.py lines 122-164); the numeric details of the
reason strings are elided, their check/advice structure is kept. -/
def validateMarketConditions (md : MarketData) : MarketCheck :=
  if md.n < 20 then
    { valid := false, reasons := ["Insufficient data (need 20 candles)"] }
  else
    let vma := md.volumeMA.getD md.volume
    let adx := md.adx.getD 0
    let volumeOk := decide (vma * (1/2) ≤ md.volume)
    let adxOk := decide ((20 : ℚ) < adx)
    { valid := volumeOk && adxOk
      reasons :=
        (if volumeOk then ["Volume Check"] else ["Low Volume"]) ++
        (if adxOk then ["Strong Trend"] else ["Weak Trend"]) }

/-- Proposed trade decision handed to `enforce_risk_rules`
(the dict keys it reads, with the engine-supplied fields present). -/
structure TradeDecision where
  signal : Signal
  entryPrice : ℚ
  stopLoss : ℚ
  takeProfit : ℚ
  atr : ℚ
deriving DecidableEq, Repr

/-- Verdict record of `enforce_risk_rules`: the `allowed` flag and the
ordered advisory reason trail. -/
structure RiskVerdict where
  allowed : Bool
  reasons : List String
deriving DecidableEq, Repr

/-- Embedding of `EnhancedRiskManager.enforce_risk_rules`
(src/src/enhanced_risk_manager.py lines 237-328), the permissive policy:
`allowed` starts true, a NEUTRAL signal returns early with a rejection,
risk-reward / stop-loss / take-profit / market-condition checks only append
advisory strings, and the drawdown check (on the stored account balance,
ceiling 25 percent) is the only remaining hard rejection.  The state
returned carries the peak-balance update performed by `validate_drawdown`. -/
def enforceRiskRules (st : RMState) (d : TradeDecision) (md : MarketData) :
    RMState × RiskVerdict :=
  if d.signal = Signal.neutral then
    (st, { allowed := false, reasons := ["REJECTED: No Trade Signal (NEUTRAL)"] })
  else
    let atr := if d.atr ≤ 0 then d.entryPrice * (1/50) else d.atr
    let rrCheck := validateRiskReward d.entryPrice d.stopLoss d.takeProfit (6/5)
    let r1 := [if rrCheck.valid then "RR Ratio valid" else "RR Ratio warning"]
    let slCheck := checkStopLossValidity d.entryPrice d.stopLoss (atr * (1/2))
    let r2 := r1 ++ [if slCheck.valid then "Stop Loss distance" else "Stop Loss distance short"]
    let tpCheck := checkTakeProfitValidity d.entryPrice d.takeProfit atr
    let r3 := r2 ++ [if tpCheck.valid then "Take Profit distance" else "Take Profit distance off"]
    let r4 := r3 ++ (if 20 ≤ md.n then (validateMarketConditions md).reasons else [])
    let dres := validateDrawdown st st.accountBalance 25
    if dres.2.exceeded then
      (dres.1, { allowed := false, reasons := ["BLOCKED: Drawdown"] ++ r4 })
    else
      (dres.1,
        { allowed := true
          reasons := ["APPROVED - Ready to trade"] ++
            (if r4 = [] then ["Drawdown OK"] else r4) })

/-- One OHLCV bar as the comprehensive backtester reads it: the close price
and the optional ATR cell. -/
structure Bar where
  close : ℚ
  atr : Option ℚ
deriving DecidableEq, Repr

/-- Signal-function output consumed by the backtest loops. -/
structure SigRes where
  signal : Signal
  confidence : ℚ
deriving DecidableEq, Repr

/-- Status of a recorded trade. -/
inductive TradeStatus where
  | closed
  | opened
deriving DecidableEq, Repr

/-- The `Trade` dataclass of `src/src/comprehensive_backtest.py`
(lines 17-31), with bar indices standing for the pandas timestamps. -/
structure Trade where
  entryTime : ℕ
  entryPrice : ℚ
  exitTime : ℕ
  exitPrice : ℚ
  direction : Signal
  quantity : ℚ
  risk : ℚ
  reward : ℚ
  pnl : ℚ
  pnlPercent : ℚ
  status : TradeStatus
deriving DecidableEq, Repr

/-- The `entry_data` dict of `ComprehensiveBacktester.backtest_strategy`. -/
structure EntryData where
  entryTime : ℕ
  entryPrice : ℚ
  signal : Signal
  confidence : ℚ
  quantity : ℚ
  stopLoss : ℚ
  takeProfit : ℚ
  atr : ℚ
  riskAmount : ℚ
deriving DecidableEq, Repr

/-- Loop state of `ComprehensiveBacktester.backtest_strategy`:
recorded trades, equity curve, running balance, and the open position
(`in_trade` plus `entry_data`). -/
structure BTState where
  trades : List Trade
  equityCurve : List ℚ
  currentBalance : ℚ
  openPos : Option EntryData
deriving DecidableEq, Repr

/-- The exit-condition flags of `ComprehensiveBacktester.backtest_strategy`
(src/src/comprehensive_backtest.py lines 160-172): `(hit_stop_loss,
hit_take_profit)`.  The source tests BUY with an if and treats every other
direction in the else branch, and within a direction checks the stop first
(if) and the target second (elif). -/
def hitFlags (direction : Signal) (close stopLoss takeProfit : ℚ) : Bool × Bool :=
  if direction = Signal.buy then
    if close ≤ stopLoss then (true, false)
    else if takeProfit ≤ close then (false, true)
    else (false, false)
  else
    if stopLoss ≤ close then (true, false)
    else if close ≤ takeProfit then (false, true)
    else (false, false)

/-- One iteration of the bar loop of
`ComprehensiveBacktester.backtest_strategy` (lines 102-206): entry when flat
on a BUY/SELL signal with confidence at least 55, exit when in a position and
the stop or target level is crossed by the close, or the signal is NEUTRAL;
the exit always books the current close as exit price. -/
def btStep (riskPerTrade : ℚ) (i : ℕ) (b : Bar) (sr : SigRes) (st : BTState) :
    BTState :=
  match st.openPos with
  | none =>
    if (sr.signal = Signal.buy ∨ sr.signal = Signal.sell) ∧ 55 ≤ sr.confidence then
      let price := b.close
      let atr0 := b.atr.getD (price * (1/50))
      let atr := max atr0 (price * (1/1000))
      let sl := if sr.signal = Signal.buy then price - atr * 2 else price + atr * 2
      let tp := if sr.signal = Signal.buy then price + atr * 4 else price - atr * 4
      let riskAmount := st.currentBalance * riskPerTrade
      let riskDistance := |price - sl|
      if 0 < riskDistance then
        let e : EntryData :=
          { entryTime := i, entryPrice := price, signal := sr.signal,
            confidence := sr.confidence, quantity := riskAmount / riskDistance,
            stopLoss := sl, takeProfit := tp, atr := atr,
            riskAmount := riskAmount }
        { st with openPos := some e }
      else st
    else st
  | some e =>
    let price := b.close
    let flags := hitFlags e.signal price e.stopLoss e.takeProfit
    if flags.1 = true ∨ flags.2 = true ∨ sr.signal = Signal.neutral then
      let pnl := if e.signal = Signal.buy
        then (price - e.entryPrice) * e.quantity
        else (e.entryPrice - price) * e.quantity
      let pnlPercent := if 0 < e.riskAmount then pnl / e.riskAmount * 100 else 0
      let t : Trade :=
        { entryTime := e.entryTime, entryPrice := e.entryPrice,
          exitTime := i, exitPrice := price, direction := e.signal,
          quantity := e.quantity, risk := e.riskAmount,
          reward := e.quantity * e.atr * 4, pnl := pnl,
          pnlPercent := pnlPercent, status := TradeStatus.closed }
      { trades := st.trades ++ [t]
        equityCurve := st.equityCurve ++ [st.currentBalance + pnl]
        currentBalance := st.currentBalance + pnl
        openPos := none }
    else st

/-- One bar of the backtest loop, fetching bar `i` and calling the signal
function on the prefix `df.iloc[:i+1]`. -/
def btBarStep (riskPerTrade : ℚ) (bars : List Bar) (sig : List Bar → SigRes)
    (st : BTState) (i : ℕ) : BTState :=
  match bars[i]? with
  | some b => btStep riskPerTrade i b (sig (bars.take (i + 1))) st
  | none => st

/-- Embedding of `ComprehensiveBacktester.backtest_strategy`
(src/src/comprehensive_backtest.py lines 68-237): guard for at least 100
candles, the bar loop from index 100, and the force-close of a position
still open at the end (status OPEN, exit at the final close). -/
def backtestStrategy (startingBalance riskPerTradePercent : ℚ)
    (bars : List Bar) (sig : List Bar → SigRes) : BTState :=
  let riskPerTrade := riskPerTradePercent / 100
  let init : BTState :=
    { trades := [], equityCurve := [startingBalance],
      currentBalance := startingBalance, openPos := none }
  if bars.length < 100 then init
  else
    let final := (List.range' 100 (bars.length - 100)).foldl
      (btBarStep riskPerTrade bars sig) init
    match final.openPos with
    | none => final
    | some e =>
      let price := (bars.getLast?.getD ⟨0, none⟩).close
      let pnl := if e.signal = Signal.buy
        then (price - e.entryPrice) * e.quantity
        else (e.entryPrice - price) * e.quantity
      let pnlPercent := if 0 < e.riskAmount then pnl / e.riskAmount * 100 else 0
      let t : Trade :=
        { entryTime := e.entryTime, entryPrice := e.entryPrice,
          exitTime := bars.length - 1, exitPrice := price, direction := e.signal,
          quantity := e.quantity, risk := e.riskAmount,
          reward := e.quantity * e.atr * 4, pnl := pnl,
          pnlPercent := pnlPercent, status := TradeStatus.opened }
      { trades := final.trades ++ [t]
        equityCurve := final.equityCurve ++ [final.currentBalance + pnl]
        currentBalance := final.currentBalance + pnl
        openPos := none }

/-- Exit reason of the older `BacktestEngine` loop. -/
inductive ExitReason where
  | stopLoss
  | takeProfit
deriving DecidableEq, Repr

/-- Embedding of the exit check of `BacktestEngine.backtest_signal`
(src/src/backtest_engine.py lines 96-116): for a BUY position the stop is
checked first and exits at the stop level, the target second at the target
level; symmetric for SELL; `none` when neither triggers. -/
def engineExitCheck (direction : Signal) (close stopLoss takeProfit : ℚ) :
    Option (ExitReason × ℚ) :=
  if direction = Signal.buy then
    if close ≤ stopLoss then some (ExitReason.stopLoss, stopLoss)
    else if takeProfit ≤ close then some (ExitReason.takeProfit, takeProfit)
    else none
  else if direction = Signal.sell then
    if stopLoss ≤ close then some (ExitReason.stopLoss, stopLoss)
    else if close ≤ takeProfit then some (ExitReason.takeProfit, takeProfit)
    else none
  else none

/-- Gross profit over a trade list, as `_calculate_stats` computes it
(src/src/comprehensive_backtest.py line 266): sum of the strictly positive
pnl values. -/
def grossProfit (ts : List Trade) : ℚ :=
  ((ts.filter (fun t => 0 < t.pnl)).map Trade.pnl).foldl (· + ·) 0

/-- Gross loss over a trade list (line 267): absolute value of the sum of
the strictly negative pnl values. -/
def grossLoss (ts : List Trade) : ℚ :=
  |((ts.filter (fun t => t.pnl < 0)).map Trade.pnl).foldl (· + ·) 0|

/-- Profit factor of `ComprehensiveBacktester._calculate_stats` (line 268):
`gross_profit / gross_loss` when the gross loss is positive, else 0. -/
def profitFactor (ts : List Trade) : ℚ :=
  if 0 < grossLoss ts then grossProfit ts / grossLoss ts else 0

/-- The `total_wins` sum of `BacktestEngine._calculate_backtest_metrics`
(src/src/backtest_engine.py line 186). -/
def engineGrossProfit (pnls : List ℚ) : ℚ :=
  (pnls.filter (fun p => 0 < p)).foldl (· + ·) 0

/-- The `total_losses` absolute sum of
`BacktestEngine._calculate_backtest_metrics` (line 187). -/
def engineGrossLoss (pnls : List ℚ) : ℚ :=
  |(pnls.filter (fun p => p < 0)).foldl (· + ·) 0|

/-- Profit factor of `BacktestEngine._calculate_backtest_metrics`
(src/src/backtest_engine.py lines 185-188), over the per-trade pnl list. -/
def engineProfitFactor (pnls : List ℚ) : ℚ :=
  if 0 < engineGrossLoss pnls
  then engineGrossProfit pnls / engineGrossLoss pnls else 0

/-- Inner loop of `ComprehensiveBacktester._calculate_max_drawdown`
(src/src/comprehensive_backtest.py lines 301-309): running peak and running
maximum drawdown over the equity values. -/
def mddLoop : ℚ → ℚ → List ℚ → ℚ
  | _, maxdd, [] => maxdd
  | peak, maxdd, v :: rest =>
    let p := if peak < v then v else peak
    let dd := (p - v) / p
    mddLoop p (if maxdd < dd then dd else maxdd) rest

/-- Embedding of `ComprehensiveBacktester._calculate_max_drawdown`
(lines 296-311): 0 for curves shorter than two points, otherwise the loop
started at the first value, scaled to a percentage. -/
def calculateMaxDrawdown (c : List ℚ) : ℚ :=
  if c.length < 2 then 0 else mddLoop (c.headD 0) 0 c * 100

/-- Running prefix maxima of an equity curve, seeded with a prior peak. -/
def runningPeaks : ℚ → List ℚ → List ℚ
  | _, [] => []
  | p, v :: r => max p v :: runningPeaks (max p v) r

/-- Modelled from the spec: `maxDrawdown = max over i of
(peak_i - equity_i) / peak_i * 100` where `peak_i = max(equity_0..i)`;
stated with the prefix-maxima list seeded at the first equity value. -/
def specMaxDrawdown (c : List ℚ) : ℚ :=
  ((runningPeaks (c.headD 0) c).zipWith (fun p v => (p - v) / p * 100) c).foldl max 0

/-- Peak equity tracked by `BacktestEngine` (src/src/backtest_engine.py
lines 38-39 and 142-145): maximum of the starting balance and every
post-trade balance. -/
def enginePeakEquity (start : ℚ) (balances : List ℚ) : ℚ :=
  balances.foldl max start

/-- Trough equity tracked by `BacktestEngine`: minimum of the starting
balance and every post-trade balance. -/
def engineTroughEquity (start : ℚ) (balances : List ℚ) : ℚ :=
  balances.foldl min start

/-- The max-drawdown reported by `BacktestEngine._calculate_backtest_metrics`
(src/src/backtest_engine.py line 180):
`(trough_equity - peak_equity) / peak_equity * 100` when the peak is
positive, else 0. -/
def engineMaxDrawdown (start : ℚ) (balances : List ℚ) : ℚ :=
  let pk := enginePeakEquity start balances
  if 0 < pk then (engineTroughEquity start balances - pk) / pk * 100 else 0

/-- Snapshot with every optional cell missing, 50 candles of history and
zero close/volume; the base for the concrete test inputs below. -/
def snap0 : Snapshot :=
  { n := 50, close := 0, volume := 0,
    ema10 := none, ema20 := none, ema50 := none, sma200 := none,
    adx := none, supertrend := none, aroonUp := none, aroonDown := none,
    rsi := none, macdHist := none, roc := none, williamsR := none,
    mfi := none, prevMacdHist := none, volumeMA := none, obv := none,
    prevObv := none, cmf := none, atr := none }

/-- Concrete snapshot: all six trend votes bullish, momentum score 5,
volume unconfirmed (low volume, falling OBV, negative CMF). -/
def snapFullBull : Snapshot :=
  { snap0 with
    close := 10, volume := 10,
    ema10 := some 3, ema20 := some 2, ema50 := some 1, sma200 := some 5,
    adx := some 30, supertrend := some 1,
    aroonUp := some 80, aroonDown := some 20,
    rsi := some 50, macdHist := some 1, roc := some 1,
    williamsR := some (-50), mfi := some 50, prevMacdHist := some 0,
    volumeMA := some 100, obv := some 3, prevObv := some 5,
    cmf := some (-(1/2)), atr := some 2 }

/-- Concrete snapshot with exactly 3 bullish votes out of 6 (a 3-3 tie). -/
def snapTied : Snapshot :=
  { snap0 with
    close := 1,
    ema10 := some 2, ema20 := some 1, ema50 := some 5, sma200 := some 5,
    adx := some 30, supertrend := some 1,
    aroonUp := some 10, aroonDown := some 20 }

/-- Concrete snapshot with momentum score 0: every indicator misses both
its full-credit and its partial-credit band. -/
def snapNoMomentum : Snapshot :=
  { snap0 with
    n := 60,
    rsi := some 20, macdHist := some 0, prevMacdHist := some 0,
    roc := some (-1), williamsR := some (-96), mfi := some 20 }

/-- Concrete snapshot emitting a BUY at entry 100 with ATR 2. -/
def snapBuy100 : Snapshot :=
  { snap0 with
    close := 100, volume := 10,
    ema10 := some 3, ema20 := some 2, ema50 := some 1, sma200 := some 5,
    adx := some 30, supertrend := some 1,
    aroonUp := some 80, aroonDown := some 20,
    rsi := some 50, macdHist := some 1, roc := some 1,
    williamsR := some (-50), mfi := some 50, prevMacdHist := some 0,
    atr := some 2 }

/-- A closed trade record carrying a given pnl (for the statistics tests). -/
def mkTrade (pnl : ℚ) : Trade :=
  { entryTime := 0, entryPrice := 0, exitTime := 0, exitPrice := 0,
    direction := Signal.buy, quantity := 0, risk := 0, reward := 0,
    pnl := pnl, pnlPercent := 0, status := TradeStatus.closed }

/-- Bar list for the concrete backtest run: 100 warm-up bars, an entry bar
at close 100 with ATR 2, and a crash bar at close 50. -/
def demoBars : List Bar :=
  List.replicate 100 ⟨100, none⟩ ++ [⟨100, some 2⟩, ⟨50, some 2⟩]

/-- Signal function for the concrete backtest run: BUY with confidence 60
on the entry prefix, NEUTRAL afterwards. -/
def demoSig (l : List Bar) : SigRes :=
  if l.length ≤ 101 then ⟨Signal.buy, 60⟩ else ⟨Signal.neutral, 0⟩

/-- The single trade the concrete backtest run records: entered at bar 100
(close 100, stop 96, risk 200), stopped out at bar 101 whose close is 50,
so the booked loss is 2500, not the 200 risked. -/
def demoTrade : Trade :=
  { entryTime := 100, entryPrice := 100, exitTime := 101, exitPrice := 50,
    direction := Signal.buy, quantity := 50, risk := 200, reward := 400,
    pnl := -2500, pnlPercent := -1250, status := TradeStatus.closed }

/-- Initial loop state of the concrete backtest run. -/
def demoInit : BTState :=
  { trades := [], equityCurve := [10000], currentBalance := 10000, openPos := none }

/-- Entry data the concrete run opens at bar 100. -/
def demoEntry : EntryData :=
  { entryTime := 100, entryPrice := 100, signal := Signal.buy,
    confidence := 60, quantity := 50, stopLoss := 96, takeProfit := 108,
    atr := 2, riskAmount := 200 }

/-- Loop state of the concrete run after the entry bar. -/
def demoSt1 : BTState :=
  { trades := [], equityCurve := [10000], currentBalance := 10000,
    openPos := some demoEntry }

/-- Loop state of the concrete run after the stop-out bar. -/
def demoSt2 : BTState :=
  { trades := [demoTrade], equityCurve := [10000, 7500],
    currentBalance := 7500, openPos := none }

/-- A trade's exit price agrees with the close of the bar at its exit index
in the given bar list. -/
def tradeExitOk (bars : List Bar) (t : Trade) : Prop :=
  (bars[t.exitTime]?).map Bar.close = some t.exitPrice

/-- Trade list with one winner and one loser, for the statistics witnesses. -/
def tradesMixed : List Trade := [mkTrade 10, mkTrade (-4)]

/-- Trade list with only winners, for the statistics witnesses. -/
def tradesWinsOnly : List Trade := [mkTrade 5, mkTrade 3]

/-- Amended composite-rule property of the signal classifier (claim C1):
BUY/SELL exactly when trend and momentum align above the 45-point
thresholds, NEUTRAL otherwise; for a non-NEUTRAL signal the confidence is
the average of trend and momentum confidence, with the +5 volume bonus and
the 95-point cap applied only when volume is confirmed. -/
def CompositeRuleProp (s : Snapshot) : Prop :=
  ((applyStrictSignalRules s).signal = Signal.buy ↔
    ((evaluateTrendStrength s).trend = Trend.bullish ∧
      45 < (evaluateTrendStrength s).confidence ∧
      (evaluateMomentumConfirmation s).confirmed = true ∧
      45 < (evaluateMomentumConfirmation s).confidence)) ∧
  ((applyStrictSignalRules s).signal = Signal.sell ↔
    ((evaluateTrendStrength s).trend = Trend.bearish ∧
      45 < (evaluateTrendStrength s).confidence ∧
      (evaluateMomentumConfirmation s).confirmed = true ∧
      45 < (evaluateMomentumConfirmation s).confidence)) ∧
  ((applyStrictSignalRules s).signal ≠ Signal.neutral →
    (applyStrictSignalRules s).confidence =
      (if (evaluateVolumeConfirmation s).confirmed = true
        then min 95 (((evaluateTrendStrength s).confidence +
          (evaluateMomentumConfirmation s).confidence) / 2 + 5)
        else ((evaluateTrendStrength s).confidence +
          (evaluateMomentumConfirmation s).confidence) / 2))

theorem bullishSignals_le_six (s : Snapshot) : bullishSignals s ≤ 6 := by
  simp only [bullishSignals]
  split_ifs <;> norm_num

theorem clamp_eq_self {x : ℚ} (h1 : 50 ≤ x) (h2 : x ≤ 100) :
    min 100 (max 50 x) = x := by
  rw [max_eq_right h1, min_eq_right h2]

theorem trendConfidence_ge_50 (s : Snapshot) :
    50 ≤ (evaluateTrendStrength s).confidence := by
  simp only [evaluateTrendStrength]
  split_ifs <;> simp <;> norm_num

theorem trendConfidence_le_100 (s : Snapshot) :
    (evaluateTrendStrength s).confidence ≤ 100 := by
  simp only [evaluateTrendStrength]
  split_ifs <;> simp

theorem momConfidence_ge_50 (s : Snapshot) :
    50 ≤ (evaluateMomentumConfirmation s).confidence := by
  simp only [evaluateMomentumConfirmation]
  simp
  norm_num

theorem momConfidence_le_100 (s : Snapshot) :
    (evaluateMomentumConfirmation s).confidence ≤ 100 := by
  simp only [evaluateMomentumConfirmation]
  simp

/-- C2 counterexample: on a snapshot where the six votes split exactly 3-3,
`evaluate_trend_strength` returns BULLISH with confidence 50, not NEUTRAL as
the claim states for a tie. -/
theorem trend_tie_gives_bullish :
    bullishSignals snapTied = 3 ∧
    (evaluateTrendStrength snapTied).bearish = 3 ∧
    (evaluateTrendStrength snapTied).trend = Trend.bullish ∧
    (evaluateTrendStrength snapTied).trend ≠ Trend.neutral ∧
    (evaluateTrendStrength snapTied).confidence = 50 := by
  have hb : bullishSignals snapTied = 3 := by
    norm_num [bullishSignals, snapTied, snap0]
  have ht : evaluateTrendStrength snapTied =
      { trend := Trend.bullish, confidence := 50, bullish := 3, bearish := 3 } := by
    simp [evaluateTrendStrength, hb]
    norm_num
  refine ⟨hb, ?_, ?_, ?_, ?_⟩ <;> simp [ht]

/-- C2 (amended): the trend sub-evaluator casts 6 boolean votes and returns
BULLISH whenever at least 3 votes are bullish (the 3-3 tie included) and
BEARISH otherwise; NEUTRAL is never returned; the confidence always equals
voteCount/6 x 100 for the chosen side, which is automatically at least 50. -/
theorem trend_majority_rule (s : Snapshot) :
    (evaluateTrendStrength s).trend =
      (if 3 ≤ bullishSignals s then Trend.bullish else Trend.bearish) ∧
    (evaluateTrendStrength s).trend ≠ Trend.neutral ∧
    (evaluateTrendStrength s).confidence =
      ((if 3 ≤ bullishSignals s then bullishSignals s
        else 6 - bullishSignals s : ℕ) : ℚ) / 6 * 100 := by
  have h6 : bullishSignals s ≤ 6 := bullishSignals_le_six s
  simp only [evaluateTrendStrength]
  rcases le_or_lt 3 (bullishSignals s) with h3 | h3
  · have hq3 : (3 : ℚ) ≤ (bullishSignals s : ℚ) := by exact_mod_cast h3
    have hq6 : ((bullishSignals s : ℚ)) ≤ 6 := by exact_mod_cast h6
    have hle : ((bullishSignals s : ℚ)) / 6 * 100 ≤ 100 := by linarith
    have hge : (50 : ℚ) ≤ ((bullishSignals s : ℚ)) / 6 * 100 := by linarith
    simp only [if_pos h3, min_eq_right hle, clamp_eq_self hge hle]
    simp
  · have h3' : ¬ 3 ≤ bullishSignals s := not_le.mpr h3
    have hb : 3 ≤ 6 - bullishSignals s := by omega
    have hq3 : (4 : ℚ) ≤ ((6 - bullishSignals s : ℕ) : ℚ) := by
      have : 4 ≤ 6 - bullishSignals s := by omega
      exact_mod_cast this
    have hq6 : (((6 - bullishSignals s : ℕ)) : ℚ) ≤ 6 := by
      have : 6 - bullishSignals s ≤ 6 := by omega
      exact_mod_cast this
    have hle : (((6 - bullishSignals s : ℕ)) : ℚ) / 6 * 100 ≤ 100 := by linarith
    have hge : (50 : ℚ) ≤ (((6 - bullishSignals s : ℕ)) : ℚ) / 6 * 100 := by linarith
    simp only [if_neg h3', if_pos hb, min_eq_right hle, clamp_eq_self hge hle]
    simp

/-- C3 counterexample: on a snapshot whose momentum score is 0, the reported
confidence is 50, not score/5 x 100 = 0 as the claim states. -/
theorem momentum_confidence_floored :
    momentumScore snapNoMomentum = 0 ∧
    (evaluateMomentumConfirmation snapNoMomentum).confidence = 50 ∧
    (evaluateMomentumConfirmation snapNoMomentum).confidence ≠
      momentumScore snapNoMomentum / 5 * 100 := by
  have h0 : momentumScore snapNoMomentum = 0 := by
    norm_num [momentumScore, rsiCredit, macdCredit, rocCredit, williamsCredit,
      mfiCredit, snapNoMomentum, snap0]
  have h1 : (evaluateMomentumConfirmation snapNoMomentum).confidence = 50 := by
    rw [evaluateMomentumConfirmation, h0]
    norm_num
  refine ⟨h0, h1, ?_⟩
  rw [h0, h1]
  norm_num


/-- C3 (amended): the momentum sub-evaluator sums per-indicator partial
credits (each 0, 0.3, 0.5 or 1.0 over RSI, MACD histogram, ROC,
Williams %R, MFI) into a score out of 5, reports
confirmed iff score is at least 1.5, and reports
confidence = score/5 x 100 clamped below at 50 (the clamp above at 100
never binds because the score is at most 5). -/
theorem momentum_confirmation_rule (s : Snapshot) :
    ((evaluateMomentumConfirmation s).confirmed = true ↔ 3/2 ≤ momentumScore s) ∧
    (evaluateMomentumConfirmation s).score = momentumScore s ∧
    (evaluateMomentumConfirmation s).confidence =
      max 50 (momentumScore s / 5 * 100) ∧
    (0 ≤ momentumScore s ∧ momentumScore s ≤ 5) := by
  have hr : 0 ≤ rsiCredit s ∧ rsiCredit s ≤ 1 := by
    simp only [rsiCredit]; split_ifs <;> norm_num
  have hm : 0 ≤ macdCredit s ∧ macdCredit s ≤ 1 := by
    simp only [macdCredit]; split_ifs <;> norm_num
  have ho : 0 ≤ rocCredit s ∧ rocCredit s ≤ 1 := by
    simp only [rocCredit]; split_ifs <;> norm_num
  have hw : 0 ≤ williamsCredit s ∧ williamsCredit s ≤ 1 := by
    simp only [williamsCredit]; split_ifs <;> norm_num
  have hf : 0 ≤ mfiCredit s ∧ mfiCredit s ≤ 1 := by
    simp only [mfiCredit]; split_ifs <;> norm_num
  have hs0 : 0 ≤ momentumScore s := by
    simp only [momentumScore]; linarith [hr.1, hm.1, ho.1, hw.1, hf.1]
  have hs5 : momentumScore s ≤ 5 := by
    simp only [momentumScore]; linarith [hr.2, hm.2, ho.2, hw.2, hf.2]
  refine ⟨?_, rfl, ?_, hs0, hs5⟩
  · simp [evaluateMomentumConfirmation]
  · have hle : max 50 (momentumScore s / 5 * 100) ≤ 100 := by
      rw [max_le_iff]; constructor <;> linarith
    simp only [evaluateMomentumConfirmation]
    exact min_eq_right hle

/-- C5 (confirmed): in both simulators' exit checks, for a BUY position the
stop triggers exactly when the close is at or below the stop level and the
target exactly when the close is at or above the target level with the stop
not triggered (symmetric for SELL); because the stop is tested first, a bar
satisfying both conditions is always recorded as a stop-loss exit, never a
take-profit exit. -/
theorem exit_check_stop_first (close stopLoss takeProfit : ℚ) :
    ((hitFlags Signal.buy close stopLoss takeProfit).1 = true ↔
      close ≤ stopLoss) ∧
    ((hitFlags Signal.buy close stopLoss takeProfit).2 = true ↔
      (takeProfit ≤ close ∧ ¬ close ≤ stopLoss)) ∧
    ((hitFlags Signal.sell close stopLoss takeProfit).1 = true ↔
      stopLoss ≤ close) ∧
    ((hitFlags Signal.sell close stopLoss takeProfit).2 = true ↔
      (close ≤ takeProfit ∧ ¬ stopLoss ≤ close)) ∧
    ((engineExitCheck Signal.buy close stopLoss takeProfit =
        some (ExitReason.stopLoss, stopLoss)) ↔ close ≤ stopLoss) ∧
    ((engineExitCheck Signal.buy close stopLoss takeProfit =
        some (ExitReason.takeProfit, takeProfit)) ↔
      (takeProfit ≤ close ∧ ¬ close ≤ stopLoss)) ∧
    ((engineExitCheck Signal.sell close stopLoss takeProfit =
        some (ExitReason.stopLoss, stopLoss)) ↔ stopLoss ≤ close) ∧
    ((engineExitCheck Signal.sell close stopLoss takeProfit =
        some (ExitReason.takeProfit, takeProfit)) ↔
      (close ≤ takeProfit ∧ ¬ stopLoss ≤ close)) := by
  refine ⟨?_, ?_, ?_, ?_, ?_, ?_, ?_, ?_⟩ <;>
    simp only [hitFlags, engineExitCheck] <;> split_ifs <;> simp_all

theorem validateDrawdown_peak_mono (st : RMState) (bal m : ℚ) :
    st.peakBalance ≤ (validateDrawdown st bal m).1.peakBalance := by
  simp only [validateDrawdown]
  split_ifs with h
  · exact le_of_lt h
  · exact le_refl _

theorem foldl_validateDrawdown_peak_mono (calls : List (ℚ × ℚ)) (st : RMState) :
    st.peakBalance ≤
      (calls.foldl (fun s c => (validateDrawdown s c.1 c.2).1) st).peakBalance := by
  induction calls generalizing st with
  | nil => exact le_refl _
  | cons c cs ih =>
    simp only [List.foldl_cons]
    exact le_trans (validateDrawdown_peak_mono st c.1 c.2) (ih _)

/-- C9 (confirmed): `validate_drawdown` mutates only the peak-balance field,
setting it to the current balance exactly when that balance exceeds the
stored peak; every other manager field is unchanged, the peak never
decreases, and along any sequence of calls the peak is non-decreasing. -/
theorem drawdown_updates_only_peak (st : RMState) (bal m : ℚ)
    (calls : List (ℚ × ℚ)) :
    ((validateDrawdown st bal m).1.peakBalance =
      if st.peakBalance < bal then bal else st.peakBalance) ∧
    (validateDrawdown st bal m).1.accountBalance = st.accountBalance ∧
    (validateDrawdown st bal m).1.maxRiskPercent = st.maxRiskPercent ∧
    (validateDrawdown st bal m).1.maxRiskAmount = st.maxRiskAmount ∧
    (validateDrawdown st bal m).1.tradesLog = st.tradesLog ∧
    (validateDrawdown st bal m).1.cumulativeLoss = st.cumulativeLoss ∧
    (validateDrawdown st bal m).1.consecutiveLosses = st.consecutiveLosses ∧
    st.peakBalance ≤ (validateDrawdown st bal m).1.peakBalance ∧
    st.peakBalance ≤
      (calls.foldl (fun s c => (validateDrawdown s c.1 c.2).1) st).peakBalance := by
  refine ⟨?_, ?_, ?_, ?_, ?_, ?_, ?_,
    validateDrawdown_peak_mono st bal m,
    foldl_validateDrawdown_peak_mono calls st⟩ <;>
    simp only [validateDrawdown] <;> split_ifs <;> rfl

/-- C6 (confirmed): under the permissive policy of `enforce_risk_rules`, the
verdict is disallowed exactly when the proposed signal is NEUTRAL or the
drawdown check against the tracked peak reports its 25-percent ceiling
exceeded; the risk-reward, stop-distance, take-profit and market-condition
checks only contribute advisory reason strings and never affect `allowed`. -/
theorem risk_gate_permissive (st : RMState) (d : TradeDecision) (md : MarketData) :
    (enforceRiskRules st d md).2.allowed = false ↔
      (d.signal = Signal.neutral ∨
        (validateDrawdown st st.accountBalance 25).2.exceeded = true) := by
  by_cases hsig : d.signal = Signal.neutral
  · simp [enforceRiskRules, hsig]
  · by_cases hdd : (validateDrawdown st st.accountBalance 25).2.exceeded = true
    · simp [enforceRiskRules, hsig, hdd]
    · simp only [Bool.not_eq_true] at hdd
      simp [enforceRiskRules, hsig, hdd]

/-- C8 (confirmed): in both backtesters the reported profit factor equals
grossProfit/grossLoss when the gross loss is positive, and is exactly 0
(a rational, so never NaN or infinite) when the gross loss vanishes, in
particular whenever there is no losing trade. -/
theorem profit_factor_rule (ts : List Trade) (pnls : List ℚ) :
    (0 < grossLoss ts → profitFactor ts = grossProfit ts / grossLoss ts) ∧
    (grossLoss ts = 0 → profitFactor ts = 0) ∧
    ((∀ t ∈ ts, 0 ≤ t.pnl) → grossLoss ts = 0 ∧ profitFactor ts = 0) ∧
    (0 < engineGrossLoss pnls →
      engineProfitFactor pnls = engineGrossProfit pnls / engineGrossLoss pnls) ∧
    (engineGrossLoss pnls = 0 → engineProfitFactor pnls = 0) ∧
    ((∀ p ∈ pnls, 0 ≤ p) →
      engineGrossLoss pnls = 0 ∧ engineProfitFactor pnls = 0) := by
  have hker : (∀ t ∈ ts, 0 ≤ t.pnl) → grossLoss ts = 0 := by
    intro h
    have hf : ts.filter (fun t => t.pnl < 0) = [] := by
      rw [List.filter_eq_nil_iff]
      intro t ht
      simpa using not_lt.mpr (h t ht)
    simp [grossLoss, hf]
  have hker2 : (∀ p ∈ pnls, 0 ≤ p) → engineGrossLoss pnls = 0 := by
    intro h
    have hf : pnls.filter (fun p => p < 0) = [] := by
      rw [List.filter_eq_nil_iff]
      intro p hp
      simpa using not_lt.mpr (h p hp)
    simp [engineGrossLoss, hf]
  refine ⟨?_, ?_, ?_, ?_, ?_, ?_⟩
  · intro h; simp [profitFactor, h]
  · intro h; simp [profitFactor, h]
  · intro h; exact ⟨hker h, by simp [profitFactor, hker h]⟩
  · intro h; simp [engineProfitFactor, h]
  · intro h; simp [engineProfitFactor, h]
  · intro h; exact ⟨hker2 h, by simp [engineProfitFactor, hker2 h]⟩

/-- Witness for C8: on a concrete mixed trade list the profit factor is the
quotient of the gross sums, and on an all-winning list it is exactly 0;
likewise for the older engine's pnl lists. -/
theorem profit_factor_rule_witness :
    profitFactor tradesMixed = grossProfit tradesMixed / grossLoss tradesMixed ∧
    grossLoss tradesWinsOnly = 0 ∧
    profitFactor tradesWinsOnly = 0 ∧
    engineProfitFactor [5, -2] = engineGrossProfit [5, -2] / engineGrossLoss [5, -2] ∧
    engineGrossLoss [5, 3] = 0 ∧
    engineProfitFactor [5, 3] = 0 := by
  have h1 := profit_factor_rule tradesMixed [5, -2]
  have h2 := profit_factor_rule tradesWinsOnly [5, 3]
  have hl1 : (0 : ℚ) < grossLoss tradesMixed := by
    simp [grossLoss, tradesMixed, mkTrade]
  have hl2 : ∀ t ∈ tradesWinsOnly, (0 : ℚ) ≤ t.pnl := by
    intro t ht
    simp [tradesWinsOnly, mkTrade] at ht
    rcases ht with h | h <;> simp [h, mkTrade]
  have he1 : (0 : ℚ) < engineGrossLoss [5, -2] := by
    simp [engineGrossLoss]
  have he2 : ∀ p ∈ ([5, 3] : List ℚ), (0 : ℚ) ≤ p := by
    intro p hp
    simp at hp
    rcases hp with h | h <;> simp [h]
  exact ⟨h1.1 hl1, (h2.2.2.1 hl2).1, (h2.2.2.1 hl2).2,
    h1.2.2.2.1 he1, (h2.2.2.2.2.2 he2).1, (h2.2.2.2.2.2 he2).2⟩

theorem clamp0_eq_self {x : ℚ} (h1 : 0 ≤ x) (h2 : x ≤ 100) :
    min 100 (max 0 x) = x := by
  rw [max_eq_right h1, min_eq_right h2]

/-- C1 counterexample: on a concrete snapshot with a perfect trend score,
a perfect momentum score and volume unconfirmed, the classifier emits BUY
with confidence 100, so the returned confidence exceeds 95; the 95-point
cap is applied only on the volume-bonus path. -/
theorem confidence_cap_violated :
    (applyStrictSignalRules snapFullBull).signal = Signal.buy ∧
    (applyStrictSignalRules snapFullBull).confidence = 100 ∧
    95 < (applyStrictSignalRules snapFullBull).confidence := by
  have h1 : (applyStrictSignalRules snapFullBull).signal = Signal.buy := by
    norm_num [applyStrictSignalRules, evaluateTrendStrength,
      evaluateMomentumConfirmation, evaluateVolumeConfirmation, bullishSignals,
      momentumScore, rsiCredit, macdCredit, rocCredit, williamsCredit,
      mfiCredit, snapFullBull, snap0]
  have h2 : (applyStrictSignalRules snapFullBull).confidence = 100 := by
    norm_num [applyStrictSignalRules, evaluateTrendStrength,
      evaluateMomentumConfirmation, evaluateVolumeConfirmation, bullishSignals,
      momentumScore, rsiCredit, macdCredit, rocCredit, williamsCredit,
      mfiCredit, snapFullBull, snap0]
  exact ⟨h1, h2, by rw [h2]; norm_num⟩

/-- C1 (amended): for a history of at least 50 candles the classifier emits
BUY iff the trend is BULLISH with trend confidence above 45 and momentum is
confirmed with momentum confidence above 45 (symmetric for SELL with
BEARISH), NEUTRAL otherwise; when a BUY or SELL is emitted the confidence
equals the average of trend and momentum confidence plus a 5-point bonus
capped at 95 when volume is confirmed, and equals the plain average (which
can reach 100) when volume is not confirmed. -/
theorem composite_signal_rule (s : Snapshot) (h : 50 ≤ s.n) :
    CompositeRuleProp s := by
  have hn : ¬ s.n < 50 := not_lt.mpr h
  have htl := trendConfidence_ge_50 s
  have htu := trendConfidence_le_100 s
  have hml := momConfidence_ge_50 s
  have hmu := momConfidence_le_100 s
  unfold CompositeRuleProp
  simp only [applyStrictSignalRules, if_neg hn]
  by_cases hb : (evaluateTrendStrength s).trend = Trend.bullish ∧
      45 < (evaluateTrendStrength s).confidence ∧
      (evaluateMomentumConfirmation s).confirmed = true ∧
      45 < (evaluateMomentumConfirmation s).confidence
  · have hnotsell : ¬ ((evaluateTrendStrength s).trend = Trend.bearish ∧
        45 < (evaluateTrendStrength s).confidence ∧
        (evaluateMomentumConfirmation s).confirmed = true ∧
        45 < (evaluateMomentumConfirmation s).confidence) := by
      rintro ⟨hbe, -⟩
      rw [hb.1] at hbe
      exact absurd hbe (by simp)
    simp only [if_pos hb]
    refine ⟨by simp [hb], by simp [hnotsell], ?_⟩
    intro _
    by_cases hv : (evaluateVolumeConfirmation s).confirmed = true
    · simp only [if_pos hv]
      apply clamp0_eq_self
      · refine le_min (by norm_num) (by linarith)
      · exact le_trans (min_le_left _ _) (by norm_num)
    · simp only [if_neg hv]
      apply clamp0_eq_self <;> linarith
  · by_cases hsell : (evaluateTrendStrength s).trend = Trend.bearish ∧
        45 < (evaluateTrendStrength s).confidence ∧
        (evaluateMomentumConfirmation s).confirmed = true ∧
        45 < (evaluateMomentumConfirmation s).confidence
    · simp only [if_neg hb, if_pos hsell]
      refine ⟨by simp [hb], by simp [hsell], ?_⟩
      intro _
      by_cases hv : (evaluateVolumeConfirmation s).confirmed = true
      · simp only [if_pos hv]
        apply clamp0_eq_self
        · refine le_min (by norm_num) (by linarith)
        · exact le_trans (min_le_left _ _) (by norm_num)
      · simp only [if_neg hv]
        apply clamp0_eq_self <;> linarith
    · simp only [if_neg hb, if_neg hsell]
      refine ⟨by simp [hb], by simp [hsell], ?_⟩
      intro hne
      simp at hne

/-- Witness for C1: the amended composite rule evaluated on the concrete
full-bull snapshot, whose history length is exactly 50. -/
theorem composite_signal_rule_witness : CompositeRuleProp snapFullBull :=
  composite_signal_rule snapFullBull (by norm_num [snapFullBull, snap0])

theorem ratio_self_abs (x : ℚ) : (x * 5) / (x * (5/2)) = |x * 5| / |x * (5/2)| := by
  rcases eq_or_ne x 0 with h | h
  · simp [h]
  · rw [← abs_div]
    have hx : (x * 5) / (x * (5/2)) = 2 := by
      field_simp
    rw [hx]
    simp

/-- C4 (confirmed): whenever the classifier emits a non-NEUTRAL signal, the
setup satisfies stopLoss = entry - sign(direction) x ATR x 2.5,
takeProfit = entry + sign(direction) x ATR x 5.0, and
rr = |takeProfit - entry| / |entry - stopLoss|. -/
theorem setup_formula (s : Snapshot)
    (hs : (applyStrictSignalRules s).signal ≠ Signal.neutral) :
    (applyStrictSignalRules s).setup.stopLoss =
      (applyStrictSignalRules s).setup.entry -
        dirSign (applyStrictSignalRules s).signal *
          (applyStrictSignalRules s).setup.atr * (5/2) ∧
    (applyStrictSignalRules s).setup.takeProfit =
      (applyStrictSignalRules s).setup.entry +
        dirSign (applyStrictSignalRules s).signal *
          (applyStrictSignalRules s).setup.atr * 5 ∧
    (applyStrictSignalRules s).setup.rr =
      |(applyStrictSignalRules s).setup.takeProfit -
          (applyStrictSignalRules s).setup.entry| /
        |(applyStrictSignalRules s).setup.entry -
          (applyStrictSignalRules s).setup.stopLoss| := by
  by_cases hn : s.n < 50
  · exact absurd (by simp [applyStrictSignalRules, if_pos hn]) hs
  · simp only [applyStrictSignalRules, if_neg hn] at hs ⊢
    by_cases hb : (evaluateTrendStrength s).trend = Trend.bullish ∧
        45 < (evaluateTrendStrength s).confidence ∧
        (evaluateMomentumConfirmation s).confirmed = true ∧
        45 < (evaluateMomentumConfirmation s).confidence
    · simp only [if_pos hb]
      set A := s.atr.getD (s.close * (1/50)) with hA
      have e1 : s.close + A * 5 - s.close = A * 5 := by ring
      have e2 : s.close - (s.close - A * (5/2)) = A * (5/2) := by ring
      refine ⟨by simp [dirSign], by simp [dirSign], ?_⟩
      simp only [ite_true, ite_false, reduceCtorEq, eq_self_iff_true, if_true,
        if_false, e1, e2]
      exact ratio_self_abs A
    · by_cases hsell : (evaluateTrendStrength s).trend = Trend.bearish ∧
          45 < (evaluateTrendStrength s).confidence ∧
          (evaluateMomentumConfirmation s).confirmed = true ∧
          45 < (evaluateMomentumConfirmation s).confidence
      · simp only [if_neg hb, if_pos hsell]
        set A := s.atr.getD (s.close * (1/50)) with hA
        have e1 : s.close - (s.close - A * 5) = A * 5 := by ring
        have e2 : s.close + A * (5/2) - s.close = A * (5/2) := by ring
        have e3 : s.close - A * 5 - s.close = -(A * 5) := by ring
        have e4 : s.close - (s.close + A * (5/2)) = -(A * (5/2)) := by ring
        refine ⟨by simp [dirSign], by simp [dirSign, sub_eq_add_neg], ?_⟩
        simp only [ite_true, ite_false, reduceCtorEq, eq_self_iff_true, if_true,
          if_false, e1, e2, e3, e4, abs_neg]
        exact ratio_self_abs A
      · exact absurd (by simp [if_neg hb, if_neg hsell]) hs

/-- Witness for C4: on the concrete BUY snapshot with entry 100 and ATR 2
the setup formulas hold and evaluate to stopLoss 95 and takeProfit 110, the
scenario stated by the claim. -/
theorem setup_formula_witness :
    (applyStrictSignalRules snapBuy100).signal = Signal.buy ∧
    (applyStrictSignalRules snapBuy100).setup.entry = 100 ∧
    (applyStrictSignalRules snapBuy100).setup.atr = 2 ∧
    (applyStrictSignalRules snapBuy100).setup.stopLoss =
      (applyStrictSignalRules snapBuy100).setup.entry -
        dirSign (applyStrictSignalRules snapBuy100).signal *
          (applyStrictSignalRules snapBuy100).setup.atr * (5/2) ∧
    (applyStrictSignalRules snapBuy100).setup.takeProfit =
      (applyStrictSignalRules snapBuy100).setup.entry +
        dirSign (applyStrictSignalRules snapBuy100).signal *
          (applyStrictSignalRules snapBuy100).setup.atr * 5 ∧
    (applyStrictSignalRules snapBuy100).setup.rr =
      |(applyStrictSignalRules snapBuy100).setup.takeProfit -
          (applyStrictSignalRules snapBuy100).setup.entry| /
        |(applyStrictSignalRules snapBuy100).setup.entry -
          (applyStrictSignalRules snapBuy100).setup.stopLoss| ∧
    (applyStrictSignalRules snapBuy100).setup.stopLoss = 95 ∧
    (applyStrictSignalRules snapBuy100).setup.takeProfit = 110 := by
  have h1 : (applyStrictSignalRules snapBuy100).signal = Signal.buy := by
    norm_num [applyStrictSignalRules, evaluateTrendStrength,
      evaluateMomentumConfirmation, evaluateVolumeConfirmation, bullishSignals,
      momentumScore, rsiCredit, macdCredit, rocCredit, williamsCredit,
      mfiCredit, snapBuy100, snap0]
  have hset : (applyStrictSignalRules snapBuy100).setup =
      { entry := 100, stopLoss := 95, takeProfit := 110, rr := 2,
        positionSize := 0, atr := 2, signalBars := 50 } := by
    norm_num [applyStrictSignalRules, evaluateTrendStrength,
      evaluateMomentumConfirmation, evaluateVolumeConfirmation, bullishSignals,
      momentumScore, rsiCredit, macdCredit, rocCredit, williamsCredit,
      mfiCredit, snapBuy100, snap0]
  have h := setup_formula snapBuy100 (by rw [h1]; simp)
  exact ⟨h1, by rw [hset], by rw [hset], h.1, h.2.1, h.2.2,
    by rw [hset], by rw [hset]⟩

theorem ite_lt_eq_max (a b : ℚ) : (if a < b then b else a) = max a b := by
  rcases lt_or_le a b with h | h
  · rw [if_pos h, max_eq_right (le_of_lt h)]
  · rw [if_neg (not_lt.mpr h), max_eq_left h]

theorem mddLoop_eq_foldl (l : List ℚ) : ∀ p d : ℚ,
    mddLoop p d l =
      ((runningPeaks p l).zipWith (fun pk v => (pk - v) / pk) l).foldl max d := by
  induction l with
  | nil => intro p d; rfl
  | cons v r ih =>
    intro p d
    simp only [mddLoop, runningPeaks, List.zipWith_cons_cons, List.foldl_cons]
    rw [ite_lt_eq_max p v, ite_lt_eq_max d ((max p v - v) / max p v)]
    exact ih (max p v) (max d _)

theorem mddLoop_ge (l : List ℚ) : ∀ p d : ℚ, d ≤ mddLoop p d l := by
  induction l with
  | nil => intro p d; exact le_refl _
  | cons v r ih =>
    intro p d
    simp only [mddLoop]
    refine le_trans ?_ (ih _ _)
    rw [ite_lt_eq_max]
    exact le_max_left _ _

theorem foldl_max_map_mul100 (l : List ℚ) : ∀ a : ℚ,
    (l.map (fun x => x * 100)).foldl max (a * 100) = l.foldl max a * 100 := by
  induction l with
  | nil => intro a; rfl
  | cons x xs ih =>
    intro a
    simp only [List.map_cons, List.foldl_cons]
    rw [show max (a * 100) (x * 100) = max a x * 100 from
      (max_mul_of_nonneg a x (by norm_num)).symm]
    exact ih (max a x)

theorem runningPeaks_chain (l : List ℚ) : ∀ p : ℚ,
    List.Chain' (· ≤ ·) (runningPeaks p l) := by
  induction l with
  | nil => intro p; simp [runningPeaks]
  | cons v r ih =>
    intro p
    rw [runningPeaks, List.chain'_cons']
    refine ⟨?_, ih (max p v)⟩
    intro y hy
    cases r with
    | nil => simp [runningPeaks] at hy
    | cons w r2 =>
      simp only [runningPeaks, List.head?_cons, Option.mem_def,
        Option.some.injEq] at hy
      rw [← hy]
      exact le_max_left _ _

theorem zipWith_mul100 (P C : List ℚ) :
    List.zipWith (fun p v => (p - v) / p * 100) P C =
      (List.zipWith (fun p v => (p - v) / p) P C).map (fun x => x * 100) := by
  induction P generalizing C with
  | nil => simp
  | cons p ps ih =>
    cases C with
    | nil => simp
    | cons v vs => simp [ih]

/-- C7 counterexample: on the spec's own scenario curve
10000, 10500, 10200, 11000 the comprehensive backtester reports the
max-over-i drawdown 20/7 (about 2.86 percent), but the older backtest
engine reports (trough - peak)/peak x 100 = -100/11, a negative value
different from the claimed formula. -/
theorem engine_drawdown_mismatch :
    engineMaxDrawdown 10000 [10500, 10200, 11000] = -100/11 ∧
    specMaxDrawdown [10000, 10500, 10200, 11000] = 20/7 ∧
    calculateMaxDrawdown [10000, 10500, 10200, 11000] = 20/7 ∧
    engineMaxDrawdown 10000 [10500, 10200, 11000] ≠
      specMaxDrawdown [10000, 10500, 10200, 11000] ∧
    engineMaxDrawdown 10000 [10500, 10200, 11000] < 0 := by
  have hmax1 : max (10000 : ℚ) 10500 = 10500 := by
    rw [max_eq_right]; norm_num
  have h1 : engineMaxDrawdown 10000 [10500, 10200, 11000] = -100/11 := by
    norm_num [engineMaxDrawdown, enginePeakEquity, engineTroughEquity,
      max_def, min_def]
  have h2 : specMaxDrawdown [10000, 10500, 10200, 11000] = 20/7 := by
    norm_num [specMaxDrawdown, runningPeaks, max_def, min_def]
  have h3 : calculateMaxDrawdown [10000, 10500, 10200, 11000] = 20/7 := by
    norm_num [calculateMaxDrawdown, mddLoop]
  refine ⟨h1, h2, h3, ?_, ?_⟩
  · rw [h1, h2]; norm_num
  · rw [h1]; norm_num

/-- C7 (amended): the comprehensive backtester's reported maxDrawdown equals
max over i of (peak_i - equity_i)/peak_i x 100 with peak_i the prefix
maximum of the equity curve, hence it is non-negative and the running peak
is non-decreasing along the curve; the older backtest engine's reported
max_drawdown is instead (troughEquity - peakEquity)/peakEquity x 100, which
is non-positive and does not satisfy the formula. -/
theorem max_drawdown_rule (c : List ℚ) :
    calculateMaxDrawdown c = specMaxDrawdown c ∧
    0 ≤ calculateMaxDrawdown c ∧
    List.Chain' (· ≤ ·) (runningPeaks (c.headD 0) c) := by
  refine ⟨?_, ?_, runningPeaks_chain c (c.headD 0)⟩
  · have hcore : mddLoop (c.headD 0) 0 c * 100 = specMaxDrawdown c := by
      rw [specMaxDrawdown, zipWith_mul100]
      rw [show (0 : ℚ) = 0 * 100 from by norm_num, foldl_max_map_mul100]
      rw [mddLoop_eq_foldl]
      norm_num
    rw [calculateMaxDrawdown]
    split_ifs with hlen
    · match c, hlen with
      | [], _ => simp [specMaxDrawdown, runningPeaks]
      | [v], _ =>
        simp [specMaxDrawdown, runningPeaks, List.zipWith]
    · exact hcore
  · rw [calculateMaxDrawdown]
    split_ifs with hlen
    · exact le_refl _
    · have := mddLoop_ge c (c.headD 0) 0
      nlinarith

theorem btStep_preserves_exit (rpt : ℚ) (bars : List Bar) (i : ℕ) (b : Bar)
    (hb : bars[i]? = some b) (sr : SigRes) (st : BTState)
    (h : ∀ t ∈ st.trades, t.status = TradeStatus.closed → tradeExitOk bars t) :
    ∀ t ∈ (btStep rpt i b sr st).trades,
      t.status = TradeStatus.closed → tradeExitOk bars t := by
  intro t ht hc
  cases hop : st.openPos with
  | none =>
    simp only [btStep, hop] at ht
    split_ifs at ht <;> exact h t ht hc
  | some e =>
    simp only [btStep, hop] at ht
    split_ifs at ht
    all_goals
      first
        | exact h t ht hc
        | (simp only [List.mem_append, List.mem_singleton] at ht
           rcases ht with ht | rfl
           · exact h t ht hc
           · simp [tradeExitOk, hb])

theorem btFold_preserves_exit (rpt : ℚ) (bars : List Bar)
    (sig : List Bar → SigRes) (idxs : List ℕ) : ∀ st : BTState,
    (∀ t ∈ st.trades, t.status = TradeStatus.closed → tradeExitOk bars t) →
    ∀ t ∈ (idxs.foldl (btBarStep rpt bars sig) st).trades,
      t.status = TradeStatus.closed → tradeExitOk bars t := by
  induction idxs with
  | nil =>
    intro st h
    simpa using h
  | cons i rest ih =>
    intro st h
    rw [List.foldl_cons]
    apply ih
    rw [btBarStep]
    cases hb : bars[i]? with
    | none => exact h
    | some b => exact btStep_preserves_exit rpt bars i b hb _ st h

/-- C10 (confirmed): every trade the comprehensive backtester closes inside
its bar loop - stop hit, target hit, or NEUTRAL signal while in a position -
records the close price of the exit bar as its exit price, never the stop
or target level; consequently a stop exit's realized loss can differ from
the amount risked. -/
theorem backtest_exit_at_close (startingBalance riskPerTradePercent : ℚ)
    (bars : List Bar) (sig : List Bar → SigRes) (t : Trade)
    (hmem : t ∈ (backtestStrategy startingBalance riskPerTradePercent bars sig).trades)
    (hclosed : t.status = TradeStatus.closed) :
    (bars[t.exitTime]?).map Bar.close = some t.exitPrice := by
  by_cases hlen : bars.length < 100
  · simp only [backtestStrategy, if_pos hlen] at hmem
    simp at hmem
  · simp only [backtestStrategy, if_neg hlen] at hmem
    have hinv := btFold_preserves_exit (riskPerTradePercent / 100) bars sig
      (List.range' 100 (bars.length - 100))
      { trades := [], equityCurve := [startingBalance],
        currentBalance := startingBalance, openPos := none }
      (by intro t ht; simp at ht)
    cases hop : ((List.range' 100 (bars.length - 100)).foldl
        (btBarStep (riskPerTradePercent / 100) bars sig)
        { trades := [], equityCurve := [startingBalance],
          currentBalance := startingBalance, openPos := none }).openPos with
    | none =>
      rw [hop] at hmem
      exact hinv t hmem hclosed
    | some e =>
      rw [hop] at hmem
      simp only [List.mem_append, List.mem_singleton] at hmem
      rcases hmem with hmem | rfl
      · exact hinv t hmem hclosed
      · simp at hclosed

/-- Witness for C10: the concrete run enters at bar 100 and is stopped out
on bar 101, whose close 50 is far below the stop 96; the recorded exit
price is that close, and the booked loss of 2500 differs from the 200
risked. -/
theorem backtest_exit_at_close_witness :
    (demoBars[demoTrade.exitTime]?).map Bar.close = some demoTrade.exitPrice ∧
    demoTrade.pnl ≠ -demoTrade.risk := by
  have h100 : demoBars[100]? = some ⟨100, some 2⟩ := by
    rw [demoBars, List.getElem?_append_right (by simp)]
    simp
  have h101 : demoBars[101]? = some ⟨50, some 2⟩ := by
    rw [demoBars, List.getElem?_append_right (by simp)]
    simp
  have hsig100 : demoSig (demoBars.take 101) = ⟨Signal.buy, 60⟩ := by
    have hl : (demoBars.take 101).length = 101 := by simp [demoBars]
    rw [demoSig, hl]
    norm_num
  have hsig101 : demoSig (demoBars.take 102) = ⟨Signal.neutral, 0⟩ := by
    have hl : (demoBars.take 102).length = 102 := by simp [demoBars]
    rw [demoSig, hl]
    norm_num
  have hstep1 : btBarStep (2/100 : ℚ) demoBars demoSig demoInit 100 = demoSt1 := by
    simp only [btBarStep, h100, hsig100]
    simp only [btStep, demoInit]
    norm_num [max_def, demoSt1, demoEntry]
  have hstep2 : btBarStep (2/100 : ℚ) demoBars demoSig demoSt1 101 = demoSt2 := by
    simp only [btBarStep, h101, hsig101]
    simp only [btStep, demoSt1, demoEntry]
    norm_num [hitFlags, demoSt2, demoTrade]
  have hlen : ¬ demoBars.length < 100 := by simp [demoBars]
  have hrange : List.range' 100 (demoBars.length - 100) = [100, 101] := by
    have h : demoBars.length = 102 := by simp [demoBars]
    rw [h]
    rfl
  have hinit : (⟨[], [10000], 10000, none⟩ : BTState) = demoInit := rfl
  have hfold : (List.range' 100 (demoBars.length - 100)).foldl
      (btBarStep (2/100 : ℚ) demoBars demoSig) demoInit = demoSt2 := by
    rw [hrange]
    simp only [List.foldl_cons, List.foldl_nil, hstep1, hstep2]
  have hrun : (backtestStrategy 10000 2 demoBars demoSig).trades = [demoTrade] := by
    simp only [backtestStrategy, if_neg hlen]
    rw [hinit, hfold]
    simp [demoSt2]
  have hmem : demoTrade ∈ (backtestStrategy 10000 2 demoBars demoSig).trades := by
    rw [hrun]
    simp
  refine ⟨backtest_exit_at_close 10000 2 demoBars demoSig demoTrade hmem rfl, ?_⟩
  norm_num [demoTrade]

end SignalRepo
